import Mathlib

/-!
Formal model of the DEM-differencing and volume/mass estimation pipeline of
`OLD_proof_of_concept/proof_of_concept_example.ipynb`.

The notebook works on numpy masked arrays.  We model a masked array of shape
`m × n` as a `MaskedGrid`: a real-valued data function together with a
per-cell invalidity predicate (`mask i j` holds iff the cell is masked, i.e.
invalid, matching numpy's convention that `True` marks a masked element).
Floating-point numbers are modelled as exact reals.

The notebook's numeric pipeline (per dataset) is:
  difference = (before_mask - after_mask) * 100
  std  = difference.std()            -- over unmasked cells, ddof = 0
  mean = difference.mean()           -- over unmasked cells
  noise_threshold   = np.abs(std + mean)
  outlier_threshold = np.abs(k * std + mean)      -- k = 6 (CUH) or 7 (RW)
  threshold_mask = np.ma.masked_outside(difference, noise_threshold, outlier_threshold)
  volume = threshold_mask * cell_width * cell_height * 10000
  mass = volume * 1.52
  sum_mass = np.sum(mass)
  report sum_mass / 1000 kilograms
Each numpy operation used is embedded below following its documented
semantics; in particular `np.ma.masked_outside` accepts its two bounds in
either order and sorts them (`if v2 < v1: (v1, v2) = (v2, v1)`) before
masking everything outside the closed interval `[v1, v2]`.
-/

open scoped Classical
open Finset

namespace DemDiff

/-- A numpy-style masked array of shape `m × n`: per-cell real data plus a
per-cell invalidity predicate (`mask i j` ↔ cell `(i,j)` is masked/invalid). -/
structure MaskedGrid (m n : ℕ) where
  data : Fin m → Fin n → ℝ
  mask : Fin m → Fin n → Prop

/-- Elementwise subtraction of masked arrays: data subtracts, the result is
masked wherever either operand is masked (numpy mask propagation). -/
def ma_sub {m n : ℕ} (a b : MaskedGrid m n) : MaskedGrid m n :=
  ⟨fun i j => a.data i j - b.data i j, fun i j => a.mask i j ∨ b.mask i j⟩

/-- Multiplying a masked array by a scalar on the right (`arr * c`): data is
multiplied, the mask is unchanged. -/
def ma_mul_scalar {m n : ℕ} (a : MaskedGrid m n) (c : ℝ) : MaskedGrid m n :=
  ⟨fun i j => a.data i j * c, a.mask⟩

/-- The Differencer: `difference_CUH = (CUH_1_proj_mask - CUH_2_proj_mask)*100`
with the unit-scaling factor (100 in the source) as the parameter `s`. -/
def difference {m n : ℕ} (before after : MaskedGrid m n) (s : ℝ) : MaskedGrid m n :=
  ma_mul_scalar (ma_sub before after) s

/-- `np.sum` on a masked array: masked elements are set internally to zero,
so the result is the sum of the data over the unmasked cells.  (For a fully
masked array numpy returns the masked constant, whose filled value is 0;
we represent that empty aggregate by 0.) -/
noncomputable def ma_sum {m n : ℕ} (g : MaskedGrid m n) : ℝ :=
  ∑ p : Fin m × Fin n, if g.mask p.1 p.2 then 0 else g.data p.1 p.2

/-- The number of unmasked (valid) cells of a masked array (`np.ma count`). -/
noncomputable def ma_count {m n : ℕ} (g : MaskedGrid m n) : ℕ :=
  (Finset.univ.filter fun p : Fin m × Fin n => ¬ g.mask p.1 p.2).card

/-- `.mean()` of a masked array: the mean of the unmasked values. -/
noncomputable def ma_mean {m n : ℕ} (g : MaskedGrid m n) : ℝ :=
  ma_sum g / ma_count g

/-- The (population, ddof = 0) variance of the unmasked values of a masked
array: mean of the squared deviations from `ma_mean` over the unmasked cells. -/
noncomputable def ma_var {m n : ℕ} (g : MaskedGrid m n) : ℝ :=
  (∑ p : Fin m × Fin n, if g.mask p.1 p.2 then 0 else (g.data p.1 p.2 - ma_mean g) ^ 2) /
    ma_count g

/-- `.std()` of a masked array: square root of the ddof-0 variance of the
unmasked values. -/
noncomputable def ma_std {m n : ℕ} (g : MaskedGrid m n) : ℝ :=
  Real.sqrt (ma_var g)

/-- `np.ma.masked_outside(x, v1, v2)`: the bounds may be given in either
order (numpy sorts them: `if v2 < v1: (v1, v2) = (v2, v1)`); cells whose
value lies strictly outside the closed interval `[lo, hi]` are masked and
the data payload is kept.  numpy evaluates the condition on the array
prefilled with its fill value (1e20 for floats), which re-masks every
previously masked cell whenever both bounds are below the fill value — as
they always are for this pipeline's thresholds — so the resulting mask is
the pre-existing mask OR-ed with the outside-band condition on the data,
which is how we model it. -/
noncomputable def masked_outside {m n : ℕ} (g : MaskedGrid m n) (v1 v2 : ℝ) : MaskedGrid m n :=
  ⟨g.data, fun i j =>
    g.mask i j ∨ g.data i j < (if v2 < v1 then v2 else v1) ∨
      (if v2 < v1 then v1 else v2) < g.data i j⟩

/-- `noise_threshold_CUH = np.abs(std_diff_CUH + mean_diff_CUH)`, with the
noise multiplier (1 in the source) exposed as the parameter `kn`. -/
noncomputable def noise_threshold {m n : ℕ} (g : MaskedGrid m n) (kn : ℝ) : ℝ :=
  |kn * ma_std g + ma_mean g|

/-- `outlier_threshold_CUH = np.abs(6*std_diff_CUH + mean_diff_CUH)`, with
the outlier multiplier (6 for CUH, 7 for RW in the source) exposed as `ko`. -/
noncomputable def outlier_threshold {m n : ℕ} (g : MaskedGrid m n) (ko : ℝ) : ℝ :=
  |ko * ma_std g + ma_mean g|

/-- The Threshold Classifier: `threshold_mask_CUH = np.ma.masked_outside(
difference_CUH, noise_threshold_CUH, outlier_threshold_CUH)`. -/
noncomputable def threshold_mask {m n : ℕ} (g : MaskedGrid m n) (kn ko : ℝ) : MaskedGrid m n :=
  masked_outside g (noise_threshold g kn) (outlier_threshold g ko)

/-- The Volume Estimator: `volume_CUH = threshold_mask_CUH * cell_width_CUH *
cell_height_CUH * 10000` (the conversion constant 10000 is the parameter `c`). -/
def volume {m n : ℕ} (g : MaskedGrid m n) (w h c : ℝ) : MaskedGrid m n :=
  ma_mul_scalar (ma_mul_scalar (ma_mul_scalar g w) h) c

/-- The Mass Estimator's per-cell step: `mass_CUH = volume_CUH*1.52` with the
density as the parameter `d`. -/
def mass {m n : ℕ} (vol : MaskedGrid m n) (d : ℝ) : MaskedGrid m n :=
  ma_mul_scalar vol d

/-- `sum_mass_CUH = np.sum(mass_CUH)`: the total mass in grams. -/
noncomputable def sum_mass {m n : ℕ} (vol : MaskedGrid m n) (d : ℝ) : ℝ :=
  ma_sum (mass vol d)

/-- The reported value `sum_mass_CUH/1000` (kilograms). -/
noncomputable def mass_kg {m n : ℕ} (vol : MaskedGrid m n) (d : ℝ) : ℝ :=
  sum_mass vol d / 1000

/-- Concrete 1×1 grid with a single valid cell, used to exercise theorems
with hypotheses on concrete inputs. -/
def gOne : MaskedGrid 1 1 :=
  ⟨fun _ _ => 5, fun _ _ => False⟩

/-- Concrete 1×2 grid whose second cell is masked, used to exercise mask
preservation on a concrete input. -/
def gHalf : MaskedGrid 1 2 :=
  ⟨fun _ _ => 5, fun _ j => j = 1⟩

/-- C2: for grids `A`, `B` of identical shape, the Differencer output is
invalid at `(i,j)` iff `A` or `B` is invalid at `(i,j)`. -/
theorem C2_difference_mask_or {m n : ℕ} (A B : MaskedGrid m n) (s : ℝ)
    (i : Fin m) (j : Fin n) :
    (difference A B s).mask i j ↔ (A.mask i j ∨ B.mask i j) :=
  Iff.rfl

/-- C6: at each valid cell the Differencer output equals `(A − B) × s`:
the subtraction is before minus after, then scaled (s = 100 in the source). -/
theorem C6_difference_value {m n : ℕ} (A B : MaskedGrid m n) (s : ℝ)
    (i : Fin m) (j : Fin n) (h : ¬ (difference A B s).mask i j) :
    (difference A B s).data i j = (A.data i j - B.data i j) * s :=
  rfl

/-- Witness for C6 at a concrete input: a 1×1 pair of all-valid grids with
values 5 and 3 and scaling 100, where the difference is (5 − 3) × 100. -/
theorem C6_witness :
    ¬ (difference gOne (mass gOne 0) 100).mask 0 0 ∧
      (difference gOne (mass gOne 0) 100).data 0 0 =
        (gOne.data 0 0 - (mass gOne 0).data 0 0) * 100 := by
  refine ⟨?_, ?_⟩
  · simp [difference, ma_mul_scalar, ma_sub, mass, gOne]
  · exact C6_difference_value gOne (mass gOne 0) 100 0 0
      (by simp [difference, ma_mul_scalar, ma_sub, mass, gOne])

/-- C7: the Threshold Classifier with fixed bounds is idempotent: reapplying
`masked_outside` to its own output with the same bounds yields the same mask. -/
theorem C7_masked_outside_idempotent {m n : ℕ} (g : MaskedGrid m n) (v1 v2 : ℝ)
    (i : Fin m) (j : Fin n) :
    (masked_outside (masked_outside g v1 v2) v1 v2).mask i j ↔
      (masked_outside g v1 v2).mask i j := by
  simp only [masked_outside]
  tauto

/-- C10: the classifier only changes validity flags: a cell valid in the
output keeps its input value, and an invalid input cell stays invalid. -/
theorem C10_classifier_frame {m n : ℕ} (g : MaskedGrid m n) (v1 v2 : ℝ)
    (i : Fin m) (j : Fin n) :
    (¬ (masked_outside g v1 v2).mask i j →
        (masked_outside g v1 v2).data i j = g.data i j) ∧
      (g.mask i j → (masked_outside g v1 v2).mask i j) :=
  ⟨fun _ => rfl, fun h => Or.inl h⟩

/-- Witness for C10 at a concrete input: on a 1×2 grid with value 5 whose
second cell is pre-masked, thresholding with bounds 0 and 10 keeps the first
cell's value and keeps the second cell invalid. -/
theorem C10_witness :
    (¬ (masked_outside gHalf 0 10).mask 0 0 ∧
        (masked_outside gHalf 0 10).data 0 0 = gHalf.data 0 0) ∧
      (gHalf.mask 0 1 ∧ (masked_outside gHalf 0 10).mask 0 1) := by
  have h0 : ¬ (masked_outside gHalf 0 10).mask 0 0 := by
    simp [masked_outside, gHalf]
    norm_num
  have h1 : gHalf.mask 0 1 := rfl
  exact ⟨⟨h0, (C10_classifier_frame gHalf 0 10 0 0).1 h0⟩,
    ⟨h1, (C10_classifier_frame gHalf 0 10 0 1).2 h1⟩⟩

/-- Concrete 1×1 grid with a single valid cell of value 3, the single-cell
scenario of the spec (difference = 3 cm). -/
def gThree : MaskedGrid 1 1 :=
  ⟨fun _ _ => 3, fun _ _ => False⟩

/-- C1: the Mass Estimator computes `mass_per_cell = volume × d` per cell,
its total equals the sum of `mass_per_cell` over exactly the valid cells
(invalid cells contribute 0), and the reported kilogram value is the gram
total divided by 1000. -/
theorem C1_mass_estimator {m n : ℕ} (vol : MaskedGrid m n) (d : ℝ) :
    (∀ i j, (mass vol d).data i j = vol.data i j * d) ∧
      (sum_mass vol d =
        ∑ p ∈ Finset.univ.filter (fun p : Fin m × Fin n => ¬ vol.mask p.1 p.2),
          vol.data p.1 p.2 * d) ∧
      mass_kg vol d = sum_mass vol d / 1000 := by
  refine ⟨fun i j => rfl, ?_, rfl⟩
  rw [Finset.sum_filter]
  exact Finset.sum_congr rfl fun p _ => by
    by_cases h : vol.mask p.1 p.2 <;> simp [sum_mass, ma_sum, mass, ma_mul_scalar, h]

/-- C5: the Volume Estimator's output at each valid cell equals
`difference × w × h × c`, its mask (and shape) equals the input's, and
invalid cells contribute zero to aggregation over the output. -/
theorem C5_volume_estimator {m n : ℕ} (g : MaskedGrid m n) (w h c : ℝ) :
    (∀ i j, ¬ (volume g w h c).mask i j →
        (volume g w h c).data i j = g.data i j * w * h * c) ∧
      (∀ i j, ((volume g w h c).mask i j ↔ g.mask i j)) ∧
      ma_sum (volume g w h c) =
        ∑ p : Fin m × Fin n,
          (if ¬ (volume g w h c).mask p.1 p.2 then (volume g w h c).data p.1 p.2 else 0) := by
  refine ⟨fun i j _ => rfl, fun i j => Iff.rfl, ?_⟩
  simp only [ma_sum, ite_not]

/-- Witness for C5 at a concrete input: the valid cell of an all-valid 1×1
grid with value 5 gets volume 5 × 2 × 3 × 4. -/
theorem C5_witness :
    ¬ (volume gOne 2 3 4).mask 0 0 ∧
      (volume gOne 2 3 4).data 0 0 = gOne.data 0 0 * 2 * 3 * 4 := by
  have h0 : ¬ (volume gOne 2 3 4).mask 0 0 := by
    simp [volume, ma_mul_scalar, gOne]
  exact ⟨h0, (C5_volume_estimator gOne 2 3 4).1 0 0 h0⟩

/-- C8 counterexample: in the single-cell scenario (difference 3, cell sides
0.00177, conversion 10000, density 1.52) the Mass Estimator yields exactly
0.14286024 g, which is not the 0.142869 g stated by the claim. -/
theorem C8_counterexample :
    sum_mass (volume gThree 0.00177 0.00177 10000) 1.52 = 0.14286024 ∧
      (0.14286024 : ℝ) ≠ 0.142869 := by
  constructor
  · simp only [sum_mass, ma_sum, mass, volume, ma_mul_scalar, gThree,
      Fintype.sum_prod_type, Fin.sum_univ_one, if_neg not_false]
    norm_num
  · norm_num

/-- C8 amended: the single valid cell's volume is 3 × 0.00177 × 0.00177 ×
10000 = 0.093987 cm³, and the mass at density 1.52 is 0.14286024 g. -/
theorem C8_amended :
    (volume gThree 0.00177 0.00177 10000).data 0 0 = 3 * 0.00177 * 0.00177 * 10000 ∧
      (volume gThree 0.00177 0.00177 10000).data 0 0 = 0.093987 ∧
      sum_mass (volume gThree 0.00177 0.00177 10000) 1.52 = 0.14286024 := by
  refine ⟨rfl, by norm_num [volume, ma_mul_scalar, gThree], ?_⟩
  simp only [sum_mass, ma_sum, mass, volume, ma_mul_scalar, gThree,
    Fintype.sum_prod_type, Fin.sum_univ_one, if_neg not_false]
  norm_num

/-- Concrete 1×2 all-valid grid with values −4 and 2: its valid-cell mean is
−1 and its valid-cell standard deviation is 3, so with multipliers
`kn = 1`, `ko = 0` the noise threshold is 2 and the outlier threshold is 1 —
an input on which the computed upper bound is below the lower bound. -/
def gNeg : MaskedGrid 1 2 :=
  ⟨fun _ j => if j = 0 then -4 else 2, fun _ _ => False⟩

theorem gNeg_count : ma_count gNeg = 2 := by
  simp [ma_count, gNeg]

theorem gNeg_sum : ma_sum gNeg = -2 := by
  simp only [ma_sum, gNeg, Fintype.sum_prod_type, Fin.sum_univ_one, Fin.sum_univ_two]
  norm_num

theorem gNeg_mean : ma_mean gNeg = -1 := by
  rw [ma_mean, gNeg_sum, gNeg_count]
  norm_num

theorem gNeg_var : ma_var gNeg = 9 := by
  rw [ma_var, gNeg_count]
  simp only [Fintype.sum_prod_type, Fin.sum_univ_one, Fin.sum_univ_two, gNeg_mean]
  simp only [gNeg]
  norm_num

theorem gNeg_std : ma_std gNeg = 3 := by
  rw [ma_std, gNeg_var, show (9 : ℝ) = 3 ^ 2 by norm_num,
    Real.sqrt_sq (by norm_num : (0 : ℝ) ≤ 3)]

theorem gNeg_noise : noise_threshold gNeg 1 = 2 := by
  rw [noise_threshold, gNeg_std, gNeg_mean]
  norm_num

theorem gNeg_outlier : outlier_threshold gNeg 0 = 1 := by
  rw [outlier_threshold, gNeg_std, gNeg_mean]
  norm_num

theorem gNeg_data_1 : gNeg.data 0 1 = 2 := by
  simp [gNeg]

/-- C3 counterexample: on `gNeg` (which has valid cells) with `kn = 1`,
`ko = 0`, the cell with value 2 exceeds the computed upper bound
(`outlier_threshold = 1`), yet the classifier leaves it valid: numpy's
`masked_outside` sorts the bounds, so the accepted band is `[1, 2]`. -/
theorem C3_counterexample :
    0 < ma_count gNeg ∧ outlier_threshold gNeg 0 < gNeg.data 0 1 ∧
      ¬ (threshold_mask gNeg 1 0).mask 0 1 := by
  refine ⟨by rw [gNeg_count]; norm_num, ?_, ?_⟩
  · rw [gNeg_outlier, gNeg_data_1]
    norm_num
  · simp only [threshold_mask, masked_outside, gNeg_noise, gNeg_outlier, gNeg_data_1]
    have h12 : (1 : ℝ) < 2 := by norm_num
    rw [if_pos h12, if_pos h12]
    simp only [gNeg]
    norm_num

/-- C3 amended: for every difference grid with at least one valid cell and
all multipliers, with x̄ and σ over the valid cells only and
`lower = |kn·σ + x̄|`, `upper = |ko·σ + x̄|`, a cell is invalid in the
classifier output iff it was already invalid or its value is `< min(lower,
upper)` or `> max(lower, upper)`: numpy's `masked_outside` accepts the
bounds in either order and sorts them, so the inclusive accepted band is
`[min(lower, upper), max(lower, upper)]`. -/
theorem C3_amended {m n : ℕ} (g : MaskedGrid m n) (kn ko : ℝ)
    (hvalid : 0 < ma_count g) (i : Fin m) (j : Fin n) :
    ((threshold_mask g kn ko).mask i j ↔
      (g.mask i j ∨
        g.data i j < min (noise_threshold g kn) (outlier_threshold g ko) ∨
        max (noise_threshold g kn) (outlier_threshold g ko) < g.data i j)) := by
  have hmin : (if outlier_threshold g ko < noise_threshold g kn
      then outlier_threshold g ko else noise_threshold g kn) =
      min (noise_threshold g kn) (outlier_threshold g ko) := by
    rw [min_def]
    split_ifs <;> first | rfl | linarith
  have hmax : (if outlier_threshold g ko < noise_threshold g kn
      then noise_threshold g kn else outlier_threshold g ko) =
      max (noise_threshold g kn) (outlier_threshold g ko) := by
    rw [max_def]
    split_ifs <;> first | rfl | linarith
  simp only [threshold_mask, masked_outside, hmin, hmax]

/-- Witness for the amended C3 on the concrete grid `gNeg` (two valid
cells) with `kn = 1`, `ko = 0`, at cell (0,1). -/
theorem C3_witness :
    0 < ma_count gNeg ∧
      ((threshold_mask gNeg 1 0).mask 0 1 ↔
        (gNeg.mask 0 1 ∨
          gNeg.data 0 1 < min (noise_threshold gNeg 1) (outlier_threshold gNeg 0) ∨
          max (noise_threshold gNeg 1) (outlier_threshold gNeg 0) < gNeg.data 0 1)) := by
  have hc : 0 < ma_count gNeg := by rw [gNeg_count]; norm_num
  exact ⟨hc, C3_amended gNeg 1 0 hc 0 1⟩

/-- C4 counterexample: on `gNeg` with `kn = 1`, `ko = 0` the computed upper
bound (1) is strictly below the lower bound (2), yet the classifier's output
mask is not all-invalid: the cell with value 2 stays valid, because numpy's
`masked_outside` sorts the bounds instead of producing an empty band. -/
theorem C4_counterexample :
    outlier_threshold gNeg 0 < noise_threshold gNeg 1 ∧
      ¬ (threshold_mask gNeg 1 0).mask 0 1 := by
  refine ⟨by rw [gNeg_outlier, gNeg_noise]; norm_num, ?_⟩
  simp only [threshold_mask, masked_outside, gNeg_noise, gNeg_outlier, gNeg_data_1]
  have h12 : (1 : ℝ) < 2 := by norm_num
  rw [if_pos h12, if_pos h12]
  simp only [gNeg]
  norm_num

/-- C4 amended: when the computed upper bound is strictly below the lower
bound, the classifier does not fail, but it does not return an all-invalid
mask either: numpy's `masked_outside` sorts the bounds, so the accepted
inclusive band is `[upper_bound, lower_bound]` and the downstream mass need
not be 0. -/
theorem C4_amended {m n : ℕ} (g : MaskedGrid m n) (kn ko : ℝ)
    (hlt : outlier_threshold g ko < noise_threshold g kn) (i : Fin m) (j : Fin n) :
    ((threshold_mask g kn ko).mask i j ↔
      (g.mask i j ∨ g.data i j < outlier_threshold g ko ∨
        noise_threshold g kn < g.data i j)) := by
  simp only [threshold_mask, masked_outside, if_pos hlt]

/-- Witness for the amended C4 on `gNeg` with `kn = 1`, `ko = 0`, whose
computed bounds satisfy upper (1) < lower (2). -/
theorem C4_witness :
    outlier_threshold gNeg 0 < noise_threshold gNeg 1 ∧
      ((threshold_mask gNeg 1 0).mask 0 1 ↔
        (gNeg.mask 0 1 ∨ gNeg.data 0 1 < outlier_threshold gNeg 0 ∨
          noise_threshold gNeg 1 < gNeg.data 0 1)) := by
  have hlt : outlier_threshold gNeg 0 < noise_threshold gNeg 1 := by
    rw [gNeg_outlier, gNeg_noise]
    norm_num
  exact ⟨hlt, C4_amended gNeg 1 0 hlt 0 1⟩

/-- Every cell left valid by the Threshold Classifier has a nonnegative
value: both bounds are absolute values, hence so is the smaller one after
numpy's sorting, and a valid cell's value is at least that bound. -/
theorem threshold_valid_nonneg {m n : ℕ} (g : MaskedGrid m n) (kn ko : ℝ)
    (i : Fin m) (j : Fin n) (hv : ¬ (threshold_mask g kn ko).mask i j) :
    0 ≤ (threshold_mask g kn ko).data i j := by
  simp only [threshold_mask, masked_outside, not_or, not_lt] at hv
  obtain ⟨-, hlo, -⟩ := hv
  have h0 : (0 : ℝ) ≤
      (if outlier_threshold g ko < noise_threshold g kn
        then outlier_threshold g ko else noise_threshold g kn) := by
    split_ifs
    · exact abs_nonneg _
    · exact abs_nonneg _
  exact le_trans h0 hlo

/-- C9: because both threshold bounds are absolute values, every cell
accepted by the Threshold Classifier has a nonnegative difference value, so
for positive cell width, cell height and density the total volume (with the
source's conversion constant 10000) and the total mass are nonnegative. -/
theorem C9_nonneg {m n : ℕ} (A B : MaskedGrid m n) (s kn ko w h d : ℝ)
    (hw : 0 < w) (hh : 0 < h) (hd : 0 < d) :
    (∀ i j, ¬ (threshold_mask (difference A B s) kn ko).mask i j →
        0 ≤ (threshold_mask (difference A B s) kn ko).data i j) ∧
      0 ≤ ma_sum (volume (threshold_mask (difference A B s) kn ko) w h 10000) ∧
      0 ≤ sum_mass (volume (threshold_mask (difference A B s) kn ko) w h 10000) d := by
  refine ⟨fun i j hv => threshold_valid_nonneg _ kn ko i j hv, ?_, ?_⟩
  · refine Finset.sum_nonneg fun p _ => ?_
    by_cases hp : (volume (threshold_mask (difference A B s) kn ko) w h 10000).mask p.1 p.2
    · rw [if_pos hp]
    · rw [if_neg hp]
      have hdat : 0 ≤ (threshold_mask (difference A B s) kn ko).data p.1 p.2 :=
        threshold_valid_nonneg _ kn ko p.1 p.2 hp
      have : (0 : ℝ) ≤ 10000 := by norm_num
      exact mul_nonneg (mul_nonneg (mul_nonneg hdat hw.le) hh.le) this
  · refine Finset.sum_nonneg fun p _ => ?_
    by_cases hp : (mass (volume (threshold_mask (difference A B s) kn ko) w h 10000) d).mask p.1 p.2
    · rw [if_pos hp]
    · rw [if_neg hp]
      have hdat : 0 ≤ (threshold_mask (difference A B s) kn ko).data p.1 p.2 :=
        threshold_valid_nonneg _ kn ko p.1 p.2 hp
      have h4 : (0 : ℝ) ≤ 10000 := by norm_num
      exact mul_nonneg (mul_nonneg (mul_nonneg (mul_nonneg hdat hw.le) hh.le) h4) hd.le

/-- Witness for C9 at a concrete input: identical before/after 1×1 grids,
scaling 100, multipliers 1 and 6, unit cell sides and unit density. -/
theorem C9_witness :
    (0 : ℝ) < 1 ∧
      0 ≤ sum_mass (volume (threshold_mask (difference gOne gOne 100) 1 6) 1 1 10000) 1 :=
  ⟨one_pos, (C9_nonneg gOne gOne 100 1 6 1 1 1 one_pos one_pos one_pos).2.2⟩

end DemDiff
